import Mathlib

/-!
Verification of the sqlmap-api task client (sqlmaptask.py).

The source drives a remote sqlmap-api server over HTTP.  The transport and the
JSON decoder are external collaborators, so the embedding abstracts them as a
function `net : String -> JsonObj` mapping a request URL to the decoded JSON
object of the response body.  The process-wide registry `SqlmapTask.__TASKS`
(a dict from api_url to a dict from task id to task object) is threaded
explicitly: every operation that can touch it takes the registry and returns
the updated registry alongside its Python return value.

Python dicts are modelled as insertion-ordered association lists with unique
keys; `dict.get` returns an `Option`, `d[k] = v` overwrites in place or
appends, and `d.pop(k)` without a default returns `none` on a missing key
(Python raises a `KeyError` there).
-/

/-- A decoded JSON value. -/
inductive JsonValue where
  | null
  | bool (b : Bool)
  | num (n : Int)
  | str (s : String)
  | arr (elems : List JsonValue)
  | obj (fields : List (String × JsonValue))

/-- A decoded JSON object (a response body), keyed by strings as JSON objects are. -/
abbrev JsonObj := List (String × JsonValue)

/-- Python truthiness of a decoded JSON value: `None`, `False`, `0`, the empty
string, the empty list and the empty dict are falsy, everything else is truthy. -/
def JsonValue.truthy : JsonValue → Bool
  | .null => false
  | .bool b => b
  | .num n => n != 0
  | .str s => !s.isEmpty
  | .arr elems => !elems.isEmpty
  | .obj fields => !fields.isEmpty

/-- Python `v.keys()`: defined when `v` is a dict (the key list, in order),
and an `AttributeError` (modelled as `none`) otherwise. -/
def JsonValue.objKeys : JsonValue → Option (List String)
  | .obj fields => some (fields.map Prod.fst)
  | _ => none

/-- Python `d.get(k)`: the value at the unique occurrence of key `k`, if any. -/
def dictGet {α : Type} : List (String × α) → String → Option α
  | [], _ => none
  | p :: rest, k => if p.1 == k then some p.2 else dictGet rest k

/-- Python `d[k] = v`: overwrite the entry for `k` in place, or append it at
the end (Python dicts keep insertion order and update in place). -/
def dictSet {α : Type} : List (String × α) → String → α → List (String × α)
  | [], k, v => [(k, v)]
  | p :: rest, k, v => if p.1 == k then (k, v) :: rest else p :: dictSet rest k v

/-- Python `d.pop(k)` with no default: the dict without the entry for `k`, or
`none` when the key is absent (Python raises a `KeyError`). -/
def dictPop {α : Type} : List (String × α) → String → Option (List (String × α))
  | [], _ => none
  | p :: rest, k =>
      if p.1 == k then some rest
      else (dictPop rest k).map (fun r => p :: r)

/-- One sqlmap task handle: the fields `self.id`, `self.api_url` and
`self.target_url` set by `SqlmapTask.__init__`. -/
structure SqlmapTask where
  id : String
  api_url : String
  target_url : String
deriving DecidableEq, Repr

/-- The process-wide registry `SqlmapTask.__TASKS`:
api_url -> (task id -> task). -/
abbrev Registry := List (String × List (String × SqlmapTask))

/-- Lookup of a task handle at the pair (api_url, task id). -/
def registryGet (tasks : Registry) (api_url task_id : String) : Option SqlmapTask :=
  (dictGet tasks api_url).bind (fun inner => dictGet inner task_id)

/-- The errors the client can raise.  `requestException` is the
`requests.RequestException` raised by `_request` on a falsy `success` field;
`keyError` is a Python `KeyError` from an indexing access or a pop;
`attributeError` models calling `.keys()` on a non-dict value; `typeError`
marks a `taskid` value that is not the string the declared constructor type
requires. -/
inductive ReqError where
  | requestException (msg : String)
  | keyError (key : String)
  | attributeError (attr : String)
  | typeError (what : String)
deriving DecidableEq, Repr

/-- Constructor `SqlmapTask.__init__` (source lines 39-45): record the three
fields and register `self` in the registry, creating the inner dict for
`api_url` first when the registry has no entry for it.  Returns the updated
registry and the constructed handle. -/
def SqlmapTask.init (tasks : Registry) (task_id api_url target_url : String) :
    Registry × SqlmapTask :=
  let t : SqlmapTask := { id := task_id, api_url := api_url, target_url := target_url }
  let inner : List (String × SqlmapTask) :=
    match dictGet tasks api_url with
    | none => []
    | some d => d
  (dictSet tasks api_url (dictSet inner task_id t), t)

/-- Model of `SqlmapTask._request` (source lines 171-190) with the transport
and JSON decoding abstracted into `net`: read the `success` field with
`r_data.get`; when the key is absent, or present with value `null` (the Python
`get` returns `None` in both cases), return the body unchanged; when the value
is falsy raise `requests.RequestException` with the message
"Request to " + url + " failed"; otherwise return the body unchanged. -/
def SqlmapTask.request (net : String → JsonObj) (url : String) : Except ReqError JsonObj :=
  let r_data := net url
  match dictGet r_data "success" with
  | none => .ok r_data
  | some .null => .ok r_data
  | some success =>
      if success.truthy then .ok r_data
      else .error (.requestException ("Request to " ++ url ++ " failed"))

/-- The loop of `task_list` (source lines 65-67): for each locally known
`(task_id, task)` pair, in insertion order, a task id absent from the active
keys is popped from `SqlmapTask.__TASKS` - the top-level registry, exactly as
the source writes it - and a pop whose key is missing there is a `KeyError`. -/
def pruneTasks (active_task_keys : List String) :
    List (String × SqlmapTask) → Registry → Except ReqError Registry
  | [], acc => .ok acc
  | p :: rest, acc =>
      if active_task_keys.contains p.1 then pruneTasks active_task_keys rest acc
      else
        match dictPop acc p.1 with
        | some acc2 => pruneTasks active_task_keys rest acc2
        | none => .error (.keyError p.1)

/-- Model of `SqlmapTask.task_list` (source lines 53-68): request
`/admin/list`, read the local inner dict for `api_url`, take the keys of the
`tasks` field of the response (a `KeyError` if the field is absent, evaluated
before the local check), return an empty dict when no tasks are locally known,
and otherwise prune the stale task ids and return the resulting registry. -/
def SqlmapTask.task_list (net : String → JsonObj) (tasks : Registry) (api_url : String) :
    Except ReqError (Registry × Registry) :=
  match SqlmapTask.request net (api_url ++ "/admin/list") with
  | .error e => .error e
  | .ok r_data =>
      let task_dict := dictGet tasks api_url
      match dictGet r_data "tasks" with
      | none => .error (.keyError "tasks")
      | some v =>
          match v.objKeys with
          | none => .error (.attributeError "keys")
          | some active_task_keys =>
              match task_dict with
              | none => .ok (tasks, [])
              | some td =>
                  match pruneTasks active_task_keys td tasks with
                  | .error e => .error e
                  | .ok final => .ok (final, final)

/-- Model of `SqlmapTask.task_flush` (source lines 70-76): request
`/admin/flush` and discard the result.  The body has no return statement, so
Python returns `None` (modelled as `none`); the registry is never mentioned
and is returned unchanged. -/
def SqlmapTask.task_flush (net : String → JsonObj) (tasks : Registry) (api_url : String) :
    Except ReqError (Registry × Option JsonObj) :=
  match SqlmapTask.request net (api_url ++ "/admin/flush") with
  | .error e => .error e
  | .ok _ => .ok (tasks, none)

/-- Model of `SqlmapTask.task_new` (source lines 82-91): request `/task/new`
and construct `SqlmapTask(r_data["taskid"], api_url, target_url)`.  A missing
`taskid` field is a `KeyError`.  The source passes the decoded value as the
declared constructor parameter `task_id: str`; the sqlmap API issues string
task ids, and a non-string value is outside the envelope the API produces,
marked `typeError` here. -/
def SqlmapTask.task_new (net : String → JsonObj) (tasks : Registry)
    (api_url target_url : String) : Except ReqError (Registry × SqlmapTask) :=
  match SqlmapTask.request net (api_url ++ "/task/new") with
  | .error e => .error e
  | .ok r_data =>
      match dictGet r_data "taskid" with
      | none => .error (.keyError "taskid")
      | some (.str task_id) => .ok (SqlmapTask.init tasks task_id api_url target_url)
      | some _ => .error (.typeError "taskid")

/-- Model of `SqlmapTask.__request` (source lines 194-202): prepend
`self.api_url` to the path and dispatch through `_request`.  The registry is
never mentioned. -/
def SqlmapTask.selfRequest (net : String → JsonObj) (t : SqlmapTask) (path : String) :
    Except ReqError JsonObj :=
  SqlmapTask.request net (t.api_url ++ path)

/-- Model of `SqlmapTask.__task_request` (source lines 218-225): dispatch
`/task/<id>/<action>` through `__request` (GET by default). -/
def SqlmapTask.task_request (net : String → JsonObj) (t : SqlmapTask) (action : String) :
    Except ReqError JsonObj :=
  t.selfRequest net ("/task/" ++ t.id ++ "/" ++ action)

/-- Model of `SqlmapTask.task_delete` (source lines 97-101): return
`self.__task_request("delete")`.  The body contains no registry statement, so
the registry is returned unchanged next to the Python return value. -/
def SqlmapTask.task_delete (net : String → JsonObj) (tasks : Registry) (t : SqlmapTask) :
    Except ReqError (Registry × JsonObj) :=
  (t.task_request net "delete").map (fun e => (tasks, e))

/-- A mocked server whose every response is a successful envelope with no
further fields of interest; used to exercise `task_flush`. -/
def netFlush : String → JsonObj := fun _ => [("success", JsonValue.bool true)]

/-- A mocked server whose `/admin/list` answer reports the single active task
id "abc123". -/
def netReconcile : String → JsonObj := fun _ =>
  [("success", JsonValue.bool true), ("tasks", JsonValue.obj [("abc123", JsonValue.str "x")])]

/-- A registry holding, under the one server, a stale task "zzz999" and the
active task "abc123", built through the constructor just as the source builds
it. -/
def regReconcile : Registry :=
  (SqlmapTask.init (SqlmapTask.init [] "zzz999" "http://127.0.0.1:8775" "http://t1").1
    "abc123" "http://127.0.0.1:8775" "http://t2").1

/-- Setting a key and reading it back yields the stored value. -/
theorem dictGet_dictSet_self {α : Type} (d : List (String × α)) (k : String) (v : α) :
    dictGet (dictSet d k v) k = some v := by
  induction d with
  | nil => simp [dictGet, dictSet]
  | cons p rest ih =>
      by_cases h : p.1 = k
      · simp [dictSet, dictGet, h]
      · simp [dictSet, dictGet, h, ih]

/-- C1: the claimed reconciliation invariant fails on the source.  On the very
scenario the claim names - authoritative set containing only "abc123", a stale
pre-registered task "zzz999" under the same server - `task_list` does not
remove "zzz999" and keep "abc123": it raises a `KeyError` on "zzz999", because
the source pops the top-level registry (keyed by server endpoint) with the
stale task id instead of the inner per-server dict. -/
theorem task_list_stale_prune_raises_keyerror :
    SqlmapTask.task_list netReconcile regReconcile "http://127.0.0.1:8775"
      = .error (.keyError "zzz999") := rfl

/-- C2: whenever the decoded body carries `success` with the value `false`,
`_request` fails with the `requests.RequestException` whose message carries
the request URL, and returns no value. -/
theorem request_fails_on_success_false (net : String → JsonObj) (url : String)
    (h : dictGet (net url) "success" = some (JsonValue.bool false)) :
    SqlmapTask.request net url
      = .error (.requestException ("Request to " ++ url ++ " failed")) := by
  unfold SqlmapTask.request
  simp only [h]
  rfl

/-- Witness for C2 at a concrete mocked response. -/
theorem request_fails_on_success_false_witness :
    SqlmapTask.request (fun _ => [("success", JsonValue.bool false)]) "http://s/x"
      = .error (.requestException "Request to http://s/x failed") :=
  request_fails_on_success_false _ _ rfl

/-- C3: when the decoded body has no `success` key, or carries a truthy
`success` value, `_request` returns the decoded body unchanged. -/
theorem request_passthrough (net : String → JsonObj) (url : String)
    (h : dictGet (net url) "success" = none ∨
      ∃ v, dictGet (net url) "success" = some v ∧ v.truthy = true) :
    SqlmapTask.request net url = .ok (net url) := by
  unfold SqlmapTask.request
  rcases h with h | ⟨v, hv, ht⟩
  · simp only [h]
  · simp only [hv]
    cases v <;> simp_all [JsonValue.truthy]

/-- Witness for C3 at a concrete mocked response with `success` equal to true. -/
theorem request_passthrough_witness :
    SqlmapTask.request (fun _ => [("success", JsonValue.bool true)]) "http://s/x"
      = .ok [("success", JsonValue.bool true)] :=
  request_passthrough _ _ (Or.inr ⟨JsonValue.bool true, rfl, rfl⟩)

/-- C4: when the `/task/new` envelope carries a `taskid`, `task_new` returns a
handle whose id is that taskid and whose api_url is the supplied endpoint, and
the handle is afterwards retrievable from the registry at the pair
(endpoint, taskid). -/
theorem task_new_registers (net : String → JsonObj) (tasks : Registry)
    (api_url target_url : String) (body : JsonObj) (tid : String)
    (hreq : SqlmapTask.request net (api_url ++ "/task/new") = .ok body)
    (htid : dictGet body "taskid" = some (JsonValue.str tid)) :
    ∃ reg : Registry,
      SqlmapTask.task_new net tasks api_url target_url
        = .ok (reg, { id := tid, api_url := api_url, target_url := target_url })
      ∧ registryGet reg api_url tid
        = some { id := tid, api_url := api_url, target_url := target_url } := by
  refine ⟨(SqlmapTask.init tasks tid api_url target_url).1, ?_, ?_⟩
  · unfold SqlmapTask.task_new
    simp only [hreq, htid]
    rfl
  · unfold SqlmapTask.init registryGet
    simp only [dictGet_dictSet_self, Option.bind_some]
    exact dictGet_dictSet_self _ _ _

/-- Witness for C4: a mocked server answering with taskid "abc123". -/
theorem task_new_registers_witness :
    ∃ reg : Registry,
      SqlmapTask.task_new (fun _ => [("taskid", JsonValue.str "abc123")]) []
          "http://127.0.0.1:8775" "http://target"
        = .ok (reg, { id := "abc123", api_url := "http://127.0.0.1:8775",
                      target_url := "http://target" })
      ∧ registryGet reg "http://127.0.0.1:8775" "abc123"
        = some { id := "abc123", api_url := "http://127.0.0.1:8775",
                 target_url := "http://target" } :=
  task_new_registers _ _ _ _ [("taskid", JsonValue.str "abc123")] "abc123" rfl rfl

/-- C5 counterexample: `task_flush` does not hand back the raw envelope of the
`/admin/flush` request.  At a server answering a successful envelope, the
claimed equality between the flush result and the envelope fails: the source
has no return statement in `task_flush`, so the value is `None`. -/
theorem task_flush_not_envelope :
    ¬ SqlmapTask.task_flush netFlush [] "http://s"
        = (SqlmapTask.request netFlush "http://s/admin/flush").map
            (fun e => (([] : Registry), some e)) := by
  intro h
  have h2 : (Except.ok (([] : Registry), (none : Option JsonObj))
      : Except ReqError (Registry × Option JsonObj))
      = Except.ok ([], some [("success", JsonValue.bool true)]) := h
  simp at h2

/-- C5 as amended: `task_flush` issues the `/admin/flush` request, leaves the
registry unchanged, and discards the envelope, returning `None`; a request
failure propagates. -/
theorem task_flush_discards_envelope (net : String → JsonObj) (tasks : Registry)
    (api_url : String) :
    SqlmapTask.task_flush net tasks api_url
      = (SqlmapTask.request net (api_url ++ "/admin/flush")).map (fun _ => (tasks, none)) := by
  unfold SqlmapTask.task_flush
  cases SqlmapTask.request net (api_url ++ "/admin/flush") <;> rfl

/-- C6: when the `/task/new` envelope is otherwise successful but has no
`taskid` field, `task_new` fails with the missing-field lookup error
(`KeyError` on "taskid") instead of returning a handle. -/
theorem task_new_missing_taskid (net : String → JsonObj) (tasks : Registry)
    (api_url target_url : String) (body : JsonObj)
    (hreq : SqlmapTask.request net (api_url ++ "/task/new") = .ok body)
    (htid : dictGet body "taskid" = none) :
    SqlmapTask.task_new net tasks api_url target_url = .error (.keyError "taskid") := by
  unfold SqlmapTask.task_new
  simp only [hreq, htid]

/-- Witness for C6: a successful envelope with no taskid field. -/
theorem task_new_missing_taskid_witness :
    SqlmapTask.task_new (fun _ => [("success", JsonValue.bool true)]) []
        "http://s" "http://target" = .error (.keyError "taskid") :=
  task_new_missing_taskid _ _ _ _ [("success", JsonValue.bool true)] rfl rfl

/-- C7: when the registry has no entry for the server and the list envelope is
well-formed, `task_list` returns an empty mapping without touching the
registry, and without error. -/
theorem task_list_no_local_entry (net : String → JsonObj) (tasks : Registry)
    (api_url : String) (body : JsonObj) (v : JsonValue) (ks : List String)
    (hreq : SqlmapTask.request net (api_url ++ "/admin/list") = .ok body)
    (hts : dictGet body "tasks" = some v) (hkeys : v.objKeys = some ks)
    (hloc : dictGet tasks api_url = none) :
    SqlmapTask.task_list net tasks api_url = .ok (tasks, []) := by
  unfold SqlmapTask.task_list
  simp only [hreq, hts, hkeys, hloc]

/-- Witness for C7: empty registry, well-formed list envelope. -/
theorem task_list_no_local_entry_witness :
    SqlmapTask.task_list
        (fun _ => [("success", JsonValue.bool true),
                   ("tasks", JsonValue.obj [("abc123", JsonValue.str "x")])])
        [] "http://s" = .ok ([], []) :=
  task_list_no_local_entry _ _ _
    [("success", JsonValue.bool true), ("tasks", JsonValue.obj [("abc123", JsonValue.str "x")])]
    (JsonValue.obj [("abc123", JsonValue.str "x")]) ["abc123"] rfl rfl rfl rfl

/-- C8: `task_delete` dispatches a GET to /task/<id>/delete on the owning
server, hands back the resulting envelope, and leaves the registry exactly as
it was. -/
theorem task_delete_frame (net : String → JsonObj) (tasks : Registry) (t : SqlmapTask) :
    SqlmapTask.task_delete net tasks t
      = (SqlmapTask.request net (t.api_url ++ "/task/" ++ t.id ++ "/delete")).map
          (fun e => (tasks, e)) := by
  unfold SqlmapTask.task_delete SqlmapTask.task_request SqlmapTask.selfRequest
  rw [show t.api_url ++ ("/task/" ++ t.id ++ "/" ++ "delete")
        = t.api_url ++ "/task/" ++ t.id ++ "/delete" by
      simp only [String.append_assoc]
      rfl]

/-- C9: a `success` value that is present, not `null`, and falsy - even when
it is not the boolean `false`, such as the number zero - triggers the same
`requests.RequestException` with the URL-bearing message: the check is Python
falsiness, not equality with `false`. -/
theorem request_fails_on_falsy (net : String → JsonObj) (url : String) (v : JsonValue)
    (hv : dictGet (net url) "success" = some v) (hnull : v ≠ JsonValue.null)
    (hfalsy : v.truthy = false) (hnotfalse : v ≠ JsonValue.bool false) :
    SqlmapTask.request net url
      = .error (.requestException ("Request to " ++ url ++ " failed")) := by
  unfold SqlmapTask.request
  simp only [hv]
  cases v with
  | null => exact absurd rfl hnull
  | _ => simp_all

/-- Witness for C9 at the falsy non-boolean value zero. -/
theorem request_fails_on_falsy_witness :
    SqlmapTask.request (fun _ => [("success", JsonValue.num 0)]) "http://s/x"
      = .error (.requestException "Request to http://s/x failed") :=
  request_fails_on_falsy _ _ (JsonValue.num 0) rfl
    (fun h => JsonValue.noConfusion h) rfl (fun h => JsonValue.noConfusion h)

/-- C10: `task_list` reads the `tasks` field of the list envelope before the
local-registry check, so even with no registry entry for the server a list
response lacking a `tasks` field fails with the missing-field lookup error
rather than the empty-mapping short circuit. -/
theorem task_list_reads_tasks_before_local_check (net : String → JsonObj)
    (tasks : Registry) (api_url : String) (body : JsonObj)
    (hloc : dictGet tasks api_url = none)
    (hreq : SqlmapTask.request net (api_url ++ "/admin/list") = .ok body)
    (hts : dictGet body "tasks" = none) :
    SqlmapTask.task_list net tasks api_url = .error (.keyError "tasks") := by
  unfold SqlmapTask.task_list
  simp only [hreq, hts]

/-- Witness for C10: empty registry, list envelope with no tasks field. -/
theorem task_list_reads_tasks_before_local_check_witness :
    SqlmapTask.task_list (fun _ => [("success", JsonValue.bool true)]) [] "http://s"
      = .error (.keyError "tasks") :=
  task_list_reads_tasks_before_local_check _ _ _
    [("success", JsonValue.bool true)] rfl rfl rfl
